import Mathlib

/-!
Verification development for the Draftly 2.0 AI service core
(file src/ai-service.js): the rate limiter, the consent manager and the
completion-gateway error classification, shallowly embedded in Lean 4.

Timestamps are JavaScript millisecond epoch values, modelled as Int.
The JavaScript number Infinity, which arises from Math.min applied to an
empty spread, is modelled by the value none of Option Int where it can
occur.  External key-value storage (chrome.storage.sync) is modelled as an
explicit record threaded through the functions that read or write it.
-/

/-! ## String helpers

Kernel-reducible counterparts of the JavaScript string operations used by
the service (toLowerCase, trim, startsWith, includes).  They operate on the
underlying character list so that every definition is structurally
recursive and evaluates under decide. -/

/-- JavaScript s.toLowerCase() for the ASCII strings used here:
character-wise lower-casing. -/
def jsToLowerCase (s : String) : String :=
  ⟨s.data.map Char.toLower⟩

/-- ASCII whitespace, the characters JavaScript trim removes in the
inputs that matter here. -/
def isWsChar (c : Char) : Bool :=
  c = ' ' || c = '\t' || c = '\n' || c = '\r'

/-- JavaScript s.trim(): drop whitespace from both ends. -/
def jsTrim (s : String) : String :=
  ⟨(((s.data.dropWhile isWsChar).reverse.dropWhile isWsChar).reverse)⟩

/-- JavaScript s.startsWith(p). -/
def jsStartsWith (s p : String) : Bool :=
  p.data.isPrefixOf s.data

/-- Does needle occur as a contiguous sublist of the character list? -/
def listContainsSub (needle : List Char) : List Char → Bool
  | [] => needle.isEmpty
  | c :: t => needle.isPrefixOf (c :: t) || listContainsSub needle t

/-- JavaScript hay.includes(needle): substring occurrence. -/
def jsIncludes (hay needle : String) : Bool :=
  listContainsSub needle.data hay.data

/-! ## RateLimiter (src/ai-service.js lines 310-399)

The ledger this.requests is a list of Int timestamps.  The constructor
fixes the caps and window sizes. -/

def maxRequestsPerMinute : Nat := 15
def maxRequestsPerHour : Nat := 100
def windowSizeMinute : Int := 60 * 1000
def windowSizeHour : Int := 60 * 60 * 1000

/-- RateLimiter.cleanOldRequests: keep only entries strictly younger than
the hour window (now - time < windowSizeHour). -/
def cleanOldRequests (now : Int) (reqs : List Int) : List Int :=
  reqs.filter (fun t => decide (now - t < windowSizeHour))

/-- The admission decision RateLimiter.canMakeRequest makes after it has
reassigned this.requests to the pruned list: minute-window count must be
below maxRequestsPerMinute and hour-window count below
maxRequestsPerHour, both with strict comparisons. -/
def rateAdmit (now : Int) (pruned : List Int) : Bool :=
  let recentRequests := pruned.filter (fun t => decide (now - t < windowSizeMinute))
  if recentRequests.length ≥ maxRequestsPerMinute then
    false
  else
    let hourlyRequests := pruned.filter (fun t => decide (now - t < windowSizeHour))
    decide (hourlyRequests.length < maxRequestsPerHour)

/-- RateLimiter.canMakeRequest: prune to the hour window, then decide
admission on the pruned ledger. -/
def canMakeRequest (now : Int) (reqs : List Int) : Bool :=
  rateAdmit now (cleanOldRequests now reqs)

/-- Math.min over a spread list; none models the JavaScript result
Infinity on an empty list. -/
def minList : List Int → Option Int
  | [] => none
  | t :: ts =>
    match minList ts with
    | none => some t
    | some m => some (min t m)

/-- RateLimiter.getResetTime.  Empty ledger: 0.  Otherwise the code takes
Math.min over the entries within the minute window and returns
Math.max(0, windowSizeMinute - (now - oldest)).  When the ledger is
non-empty but no entry lies inside the minute window, Math.min() of the
empty spread is Infinity and the whole expression evaluates to Infinity,
modelled as none. -/
def getResetTime (now : Int) (reqs : List Int) : Option Int :=
  if reqs.isEmpty then some 0
  else
    match minList (reqs.filter (fun t => decide (now - t < windowSizeMinute))) with
    | some oldestRecentRequest =>
        some (max 0 (windowSizeMinute - (now - oldestRecentRequest)))
    | none => none

/-! ## ConsentManager (src/ai-service.js lines 405-527) -/

/-- The keys of chrome.storage.sync the service reads and writes.
none models an absent (undefined or null) key. -/
structure SyncStorage where
  user_consent : Option Bool
  consent_timestamp : Option Int
  consent_version : Option String
  openai_api_key : Option String
deriving DecidableEq

/-- In-memory state of a ConsentManager instance. -/
structure ConsentState where
  consentGiven : Bool
  consentTimestamp : Option Int
deriving DecidableEq

/-- State of a freshly constructed ConsentManager. -/
def ConsentState.fresh : ConsentState :=
  { consentGiven := false, consentTimestamp := none }

/-- Consent validity period: 6 * 30 * 24 * 60 * 60 * 1000 ms (180 days). -/
def sixMonthsMs : Int := 6 * 30 * 24 * 60 * 60 * 1000

/-- JavaScript truthiness of the loaded consent_timestamp (null,
undefined and 0 are falsy). -/
def tsTruthy : Option Int → Bool
  | none => false
  | some t => decide (t ≠ 0)

/-- ConsentManager.initialize: load user_consent (strict comparison with
true) and consent_timestamp, then lazily expire: when the flag is set and
the timestamp is truthy and consent_timestamp < now - sixMonthsMs, the
in-memory flag is cleared (storage is not written back). -/
def ConsentManager.initializeState (now : Int) (st : SyncStorage) : ConsentState :=
  let given : Bool := st.user_consent = some true
  let ts := st.consent_timestamp
  if given && tsTruthy ts then
    if ts.getD 0 < now - sixMonthsMs then
      { consentGiven := false, consentTimestamp := ts }
    else
      { consentGiven := given, consentTimestamp := ts }
  else
    { consentGiven := given, consentTimestamp := ts }

/-- ConsentManager.hasConsent: when the cached flag is false, re-run
initialize against storage; return the (possibly reloaded) flag together
with the updated in-memory state. -/
def ConsentManager.hasConsent (now : Int) (st : SyncStorage) (cs : ConsentState) :
    Bool × ConsentState :=
  if cs.consentGiven then (true, cs)
  else
    let cs' := ConsentManager.initializeState now st
    (cs'.consentGiven, cs')

/-- ConsentManager.revokeConsent: clear the in-memory flag and timestamp,
write user_consent := false and consent_timestamp := null to storage, and
remove the stored openai_api_key. -/
def ConsentManager.revokeConsent (st : SyncStorage) : SyncStorage × ConsentState :=
  ({ st with
      user_consent := some false
      consent_timestamp := none
      openai_api_key := none },
   { consentGiven := false, consentTimestamp := none })

/-- Results of a sequence of hasConsent queries at the given times,
threading the in-memory state from one query to the next. -/
def hasConsentSeq (st : SyncStorage) (cs : ConsentState) : List Int → List Bool
  | [] => []
  | t :: ts =>
    let r := ConsentManager.hasConsent t st cs
    r.1 :: hasConsentSeq st r.2 ts

/-! ## DraftlyAIService (src/ai-service.js lines 6-304) -/

/-- The typed failures generateEmailReply and callOpenAI can raise; the
source throws Error objects whose messages identify these cases. -/
inductive GenError
  | invalidTone
  | consentRequired
  | missingKey
  | rateLimited (resetTime : Option Int)
  | emptyInput
  | invalidKeyFormat
  | authError
  | quotaExceeded
  | providerRateLimited
  | badRequest
  | forbidden
  | providerError (status : Nat) (msg : String)
  | noChoices
  | emptyReply
deriving DecidableEq

/-- The outcome of the single fetch to the completion endpoint, supplied
as an input to the embedding: an ok response carries data.choices as the
list of optional message contents; a non-ok response carries the HTTP
status and the provider error message (errorData.error?.message ?? ""). -/
inductive GatewayResponse
  | success (choices : List (Option String))
  | httpError (status : Nat) (errMessage : String)
deriving DecidableEq

/-- Tone validation at the top of generateEmailReply (line 43): the
lower-cased tone must be formal or casual. -/
def validateTone (tone : String) : Bool :=
  ["formal", "casual"].contains (jsToLowerCase tone)

/-- The four tone instruction templates of createSystemPrompt
(lines 126-131), keyed case-sensitively. -/
def toneInstructions (tone : String) : Option String :=
  if tone = "professional" then
    some "Use a professional, business-appropriate tone. Be formal but approachable."
  else if tone = "friendly" then
    some "Use a friendly, warm tone while maintaining professionalism. Be conversational but respectful."
  else if tone = "formal" then
    some "Use a very formal, structured tone. Be respectful and follow business etiquette strictly."
  else if tone = "casual" then
    some "Use a casual, relaxed tone. Be informal but still professional and helpful."
  else
    none

/-- The instruction block actually interpolated into the prompt:
toneInstructions[tone] || toneInstructions.professional (line 147). -/
def selectedToneInstruction (tone : String) : String :=
  (toneInstructions tone).getD
    "Use a professional, business-appropriate tone. Be formal but approachable."

def basePrompt : String :=
  "You are a professional email assistant. Generate a well-structured email reply based on the user\x27s input."

def promptGuidelines (tone : String) : String :=
  "\nGuidelines:\n- Keep the response concise and relevant\n- Include appropriate greeting and closing\n- Address the main points from the input\n- Be helpful and constructive\n- Maintain the " ++
    tone ++
    " tone throughout\n- Format as a proper email reply\n- Do not include subject lines or email headers\n- Ensure the response is complete and actionable\n"

/-- DraftlyAIService.createSystemPrompt (lines 123-150). -/
def createSystemPrompt (tone : String) : String :=
  basePrompt ++ "\n\n" ++ selectedToneInstruction tone ++ "\n\n" ++ promptGuidelines tone

/-- Error classification for a non-ok response in callOpenAI
(lines 197-219): status is inspected first; only the 429 branch consults
the provider message, with a substring check for quota. -/
def classifyHttpError (status : Nat) (errMessage : String) : GenError :=
  if status = 401 then
    .authError
  else if status = 429 then
    if jsIncludes errMessage "quota" then .quotaExceeded
    else .providerRateLimited
  else if status = 400 then
    .badRequest
  else if status = 403 then
    .forbidden
  else
    .providerError status errMessage

/-- DraftlyAIService.callOpenAI (lines 158-236).  The returned Bool
records whether the fetch to the completion endpoint was issued: the API
key shape check precedes the network call.  On an ok response the first
choice content is trimmed; a missing content or a blank trim fails. -/
def callOpenAI (apiKey : String) (resp : GatewayResponse) :
    Bool × Except GenError String :=
  if apiKey = "" || !jsStartsWith apiKey "sk-" then
    (false, .error .invalidKeyFormat)
  else
    match resp with
    | .httpError status errMessage => (true, .error (classifyHttpError status errMessage))
    | .success choices =>
      match choices with
      | [] => (true, .error .noChoices)
      | c :: _ =>
        let reply := jsTrim (c.getD "")
        if reply = "" then (true, .error .emptyReply)
        else (true, .ok reply)

instance {ε α : Type} [DecidableEq ε] [DecidableEq α] : DecidableEq (Except ε α) := fun a b =>
  match a, b with
  | .ok x, .ok y =>
    if h : x = y then isTrue (by rw [h]) else isFalse (by intro hc; cases hc; exact h rfl)
  | .error x, .error y =>
    if h : x = y then isTrue (by rw [h]) else isFalse (by intro hc; cases hc; exact h rfl)
  | .ok _, .error _ => isFalse (by intro hc; cases hc)
  | .error _, .ok _ => isFalse (by intro hc; cases hc)

/-- In-memory state of a DraftlyAIService instance together with its
owned RateLimiter ledger and ConsentManager state.  apiKey is the string
this.apiKey, with "" for a falsy (unset) key. -/
structure ServiceState where
  apiKey : String
  isInitialized : Bool
  requests : List Int
  consent : ConsentState
deriving DecidableEq

/-- DraftlyAIService.initialize (lines 17-30) as run from
generateEmailReply when this.isInitialized is false: it runs
ConsentManager.initialize and sets the flag. -/
def serviceAfterInit (now : Int) (st : SyncStorage) (s : ServiceState) : ServiceState :=
  if s.isInitialized then s
  else { s with consent := ConsentManager.initializeState now st, isInitialized := true }

/-- Observable outcome of one generateEmailReply call: the result or
typed failure, whether the completion-endpoint fetch was issued, how many
times RateLimiter.recordRequest ran, and the final service state. -/
structure GenOutcome where
  result : Except GenError String
  gatewayCalled : Bool
  recordCalls : Nat
  finalState : ServiceState
deriving DecidableEq

/-- DraftlyAIService.generateEmailReply (lines 39-115) on a single call
at time now, with storage st and gateway response resp as inputs.
Order of checks, from the source: tone validation; lazy service
initialization; consent; API key presence; rate-limit admission (which
prunes the ledger); non-empty input; then callOpenAI; recordRequest runs
only after a successful completion. -/
def generateEmailReply (now : Int) (st : SyncStorage) (s : ServiceState)
    (input : String) (tone : String) (resp : GatewayResponse) : GenOutcome :=
  if !validateTone tone then
    { result := .error .invalidTone, gatewayCalled := false, recordCalls := 0,
      finalState := s }
  else
    let s1 := serviceAfterInit now st s
    let consentCheck := ConsentManager.hasConsent now st s1.consent
    let s2 := { s1 with consent := consentCheck.2 }
    if !consentCheck.1 then
      { result := .error .consentRequired, gatewayCalled := false, recordCalls := 0,
        finalState := s2 }
    else if s2.apiKey = "" then
      { result := .error .missingKey, gatewayCalled := false, recordCalls := 0,
        finalState := s2 }
    else
      let pruned := cleanOldRequests now s2.requests
      let s3 := { s2 with requests := pruned }
      if !rateAdmit now pruned then
        { result := .error (.rateLimited (getResetTime now pruned)),
          gatewayCalled := false, recordCalls := 0, finalState := s3 }
      else if input = "" || jsTrim input = "" then
        { result := .error .emptyInput, gatewayCalled := false, recordCalls := 0,
          finalState := s3 }
      else
        let call := callOpenAI s3.apiKey resp
        match call.2 with
        | .error e =>
          { result := .error e, gatewayCalled := call.1, recordCalls := 0,
            finalState := s3 }
        | .ok text =>
          { result := .ok text, gatewayCalled := call.1, recordCalls := 1,
            finalState := { s3 with requests := s3.requests ++ [now] } }

/-! ## Helper lemmas -/

theorem minList_eq_none_iff (l : List Int) : minList l = none ↔ l = [] := by
  cases l with
  | nil => simp [minList]
  | cons t ts =>
    cases h : minList ts <;> simp [minList, h]

theorem minList_mem {l : List Int} {o : Int} (h : minList l = some o) : o ∈ l := by
  induction l with
  | nil => simp [minList] at h
  | cons t ts ih =>
    cases hts : minList ts with
    | none =>
      simp [minList, hts] at h
      simp [h]
    | some m =>
      simp [minList, hts] at h
      rcases min_cases t m with ⟨hmin, _⟩ | ⟨hmin, _⟩
      · rw [hmin] at h
        simp [← h]
      · rw [hmin] at h
        subst h
        exact List.mem_cons_of_mem _ (ih hts)

theorem serviceAfterInit_requests (now : Int) (st : SyncStorage) (s : ServiceState) :
    (serviceAfterInit now st s).requests = s.requests := by
  unfold serviceAfterInit
  split <;> rfl

theorem serviceAfterInit_apiKey (now : Int) (st : SyncStorage) (s : ServiceState) :
    (serviceAfterInit now st s).apiKey = s.apiKey := by
  unfold serviceAfterInit
  split <;> rfl

/-! ## C1: consent expiry at query time -/

/-- Claim C1 counterexample.  The claim says hasConsent answers false for every
query past the validity period, regardless of what is cached in memory.
In the code, hasConsent re-runs initialize (the only place expiry is
evaluated) only when the cached flag is false: consent stored at time
1000 is queried once at time 1000 (caching true), and a second query one
millisecond past the 180-day validity period still returns true. -/
theorem hasConsent_cached_expiry_counterexample :
    (ConsentManager.hasConsent (1000 + sixMonthsMs + 1)
        { user_consent := some true, consent_timestamp := some 1000,
          consent_version := none, openai_api_key := none }
        (ConsentManager.hasConsent 1000
          { user_consent := some true, consent_timestamp := some 1000,
            consent_version := none, openai_api_key := none }
          ConsentState.fresh).2).1 = true ∧
    (1000 + sixMonthsMs + 1) - 1000 > sixMonthsMs := by
  decide

/-- Claim C1 amended.  hasConsent evaluates expiry only on the load path: when
the cached flag is false, the answer is true iff storage records
user_consent = true and it is not the case that a truthy stored timestamp
is strictly older than now - sixMonthsMs; when the cached flag is true,
the query returns true without re-evaluating expiry. -/
theorem hasConsent_expiry_on_load_only (now : Int) (st : SyncStorage) (cs : ConsentState) :
    (cs.consentGiven = false →
      (ConsentManager.hasConsent now st cs).1 =
        (decide (st.user_consent = some true) &&
          !(tsTruthy st.consent_timestamp &&
            decide (st.consent_timestamp.getD 0 < now - sixMonthsMs)))) ∧
    (cs.consentGiven = true → (ConsentManager.hasConsent now st cs).1 = true) := by
  constructor
  · intro h
    simp only [ConsentManager.hasConsent, h, Bool.false_eq_true, if_false,
      ConsentManager.initializeState]
    split_ifs with h1 h2 <;> simp_all
  · intro h
    simp [ConsentManager.hasConsent, h]

/-- Witness for the C1 amended theorem at concrete inputs. -/
theorem hasConsent_expiry_on_load_only_witness :
    (ConsentManager.hasConsent 2000
        { user_consent := some true, consent_timestamp := some 1000,
          consent_version := none, openai_api_key := none }
        ConsentState.fresh).1 = true := by
  have h := (hasConsent_expiry_on_load_only 2000
      { user_consent := some true, consent_timestamp := some 1000,
        consent_version := none, openai_api_key := none }
      ConsentState.fresh).1 rfl
  rw [h]
  decide

/-! ## C2: accepted tones -/

/-- Claim C2.  The claim (and the repository documentation in its README,
feature list and testing guide) says the four tones professional,
friendly, formal and casual all pass tone validation.  The code of
generateEmailReply (src/ai-service.js line 43) rejects every tone whose
lower-casing is not formal or casual, so professional and friendly fail
tone validation and the call never reaches the gateway. -/
theorem tone_validation_rejects_professional :
    validateTone "professional" = false ∧
    validateTone "friendly" = false ∧
    validateTone "formal" = true ∧
    validateTone "casual" = true ∧
    validateTone "sarcastic" = false ∧
    (generateEmailReply 0
        { user_consent := some true, consent_timestamp := none,
          consent_version := none, openai_api_key := some "sk-abc" }
        { apiKey := "sk-test", isInitialized := false, requests := [],
          consent := ConsentState.fresh }
        "Please follow up on the proposal." "professional"
        (.success [some "x"])).result = .error .invalidTone ∧
    (generateEmailReply 0
        { user_consent := some true, consent_timestamp := none,
          consent_version := none, openai_api_key := some "sk-abc" }
        { apiKey := "sk-test", isInitialized := false, requests := [],
          consent := ConsentState.fresh }
        "Please follow up on the proposal." "professional"
        (.success [some "x"])).gatewayCalled = false := by
  decide

/-! ## C10: case-insensitive validation versus case-sensitive prompt lookup -/

set_option maxRecDepth 40000 in
/-- Claim C10.  Tone validation lower-cases its argument, so Formal and Casual
are accepted; createSystemPrompt looks the tone up case-sensitively and
silently falls back to the professional instructions, so the system
prompt built for Formal or Casual contains the professional instruction
block and not the one for the requested tone. -/
theorem tone_case_mismatch_uses_professional_instructions :
    validateTone "Formal" = true ∧
    validateTone "Casual" = true ∧
    toneInstructions "Formal" = none ∧
    toneInstructions "Casual" = none ∧
    selectedToneInstruction "Formal" = selectedToneInstruction "professional" ∧
    selectedToneInstruction "Casual" = selectedToneInstruction "professional" ∧
    selectedToneInstruction "Formal" ≠ selectedToneInstruction "formal" ∧
    selectedToneInstruction "Casual" ≠ selectedToneInstruction "casual" ∧
    jsIncludes (createSystemPrompt "Formal") (selectedToneInstruction "professional") = true ∧
    jsIncludes (createSystemPrompt "Formal") (selectedToneInstruction "formal") = false ∧
    jsIncludes (createSystemPrompt "Casual") (selectedToneInstruction "casual") = false := by
  decide

/-! ## C5: admission decision -/

/-- Claim C5.  canMakeRequest prunes entries older than the hour window and
admits iff the pruned count inside the minute window is strictly below
maxRequestsPerMinute and the pruned count inside the hour window is
strictly below maxRequestsPerHour; a timestamp exactly at a window edge
(now - t equal to the window size) is excluded from the corresponding
count. -/
theorem canMakeRequest_admission_spec (now : Int) (reqs : List Int) :
    (canMakeRequest now reqs = true ↔
      ((cleanOldRequests now reqs).filter
          (fun t => decide (now - t < windowSizeMinute))).length < maxRequestsPerMinute ∧
      ((cleanOldRequests now reqs).filter
          (fun t => decide (now - t < windowSizeHour))).length < maxRequestsPerHour) ∧
    (∀ t : Int, now - t = windowSizeMinute →
      t ∉ (cleanOldRequests now reqs).filter (fun u => decide (now - u < windowSizeMinute))) ∧
    (∀ t : Int, now - t = windowSizeHour → t ∉ cleanOldRequests now reqs) := by
  refine ⟨?_, ?_, ?_⟩
  · by_cases h : ((cleanOldRequests now reqs).filter
        (fun t => decide (now - t < windowSizeMinute))).length ≥ maxRequestsPerMinute
    · simp [canMakeRequest, rateAdmit, h]
    · simp [canMakeRequest, rateAdmit, h]
      omega
  · intro t ht hmem
    rw [List.mem_filter] at hmem
    have := of_decide_eq_true hmem.2
    omega
  · intro t ht hmem
    unfold cleanOldRequests at hmem
    rw [List.mem_filter] at hmem
    have := of_decide_eq_true hmem.2
    omega

/-- Witness for C5 at concrete inputs: a timestamp exactly one minute
old is excluded from the minute window, one exactly one hour old is
pruned entirely. -/
theorem canMakeRequest_admission_spec_witness :
    ((0 : Int) ∉ (cleanOldRequests 60000 [0]).filter
        (fun u => decide ((60000 : Int) - u < windowSizeMinute))) ∧
    ((-3540000 : Int) ∉ cleanOldRequests 60000 [-3540000]) := by
  constructor
  · exact (canMakeRequest_admission_spec 60000 [0]).2.1 0 (by decide)
  · exact (canMakeRequest_admission_spec 60000 [-3540000]).2.2 (-3540000) (by decide)

/-! ## C6: getResetTime value -/

/-- Claim C6 counterexample.  The claim says getResetTime returns a
non-negative finite number of milliseconds even when the ledger is
non-empty but holds no entry within the last 60000 ms.  In that state the
code computes Math.min over an empty spread, which is Infinity, and
returns Infinity (modelled as none), not a finite number: ledger [0]
queried at now = 60000. -/
theorem getResetTime_infinity_counterexample :
    getResetTime 60000 [0] = none ∧
    ([0] : List Int) ≠ [] ∧
    (([0] : List Int).filter (fun t => decide ((60000 : Int) - t < windowSizeMinute))) = [] := by
  decide

/-- Claim C6 amended.  getResetTime returns 0 on an empty ledger; when some
entry lies within the minute window it returns
windowSizeMinute - (now - oldestInMinuteWindow) floored at 0; when the
ledger is non-empty but no entry lies within the minute window it
returns Infinity (none), not a finite number. -/
theorem getResetTime_value_spec (now : Int) (reqs : List Int) :
    (reqs = [] → getResetTime now reqs = some 0) ∧
    (∀ o : Int,
      minList (reqs.filter (fun t => decide (now - t < windowSizeMinute))) = some o →
      getResetTime now reqs = some (max 0 (windowSizeMinute - (now - o)))) ∧
    (reqs ≠ [] →
      reqs.filter (fun t => decide (now - t < windowSizeMinute)) = [] →
      getResetTime now reqs = none) := by
  refine ⟨?_, ?_, ?_⟩
  · intro h
    subst h
    rfl
  · intro o ho
    have hmem : o ∈ reqs.filter (fun t => decide (now - t < windowSizeMinute)) :=
      minList_mem ho
    have hne : reqs ≠ [] := by
      intro h
      subst h
      simp at hmem
    unfold getResetTime
    rw [if_neg (by simpa using hne), ho]
  · intro hne hfil
    unfold getResetTime
    rw [if_neg (by simpa using hne), hfil]
    rfl

/-- Witness for C6 amended at concrete inputs: the three cases of the
statement evaluated on explicit ledgers. -/
theorem getResetTime_value_spec_witness :
    getResetTime 7 ([] : List Int) = some 0 ∧
    getResetTime 10 [5] = some (max 0 (windowSizeMinute - (10 - 5))) ∧
    getResetTime 60000 [0] = none := by
  refine ⟨?_, ?_, ?_⟩
  · exact (getResetTime_value_spec 7 []).1 rfl
  · exact (getResetTime_value_spec 10 [5]).2.1 5 (by decide)
  · exact (getResetTime_value_spec 60000 [0]).2.2 (by decide) (by decide)

/-! ## C7: getResetTime across successive calls -/

/-- Claim C7 counterexample.  The claim says that with no recordRequest in
between, a later getResetTime call returns a value less than or equal to
an earlier one and that the value reaches 0 when the oldest qualifying
entry exits the minute window.  With ledger [0, 30000], the call at
59999 returns 1, but one millisecond later the entry 0 has left the
minute window and the call at 60000 returns 30000 (the next-oldest
remaining time), which is larger, and 0 was never returned. -/
theorem getResetTime_monotone_counterexample :
    getResetTime 59999 [0, 30000] = some 1 ∧
    getResetTime 60000 [0, 30000] = some 30000 ∧
    ¬((30000 : Int) ≤ 1) := by
  decide

/-- Claim C7 amended.  Between successive getResetTime calls with no
recordRequest in between, the returned value is non-increasing as long
as the oldest entry within the minute window is the same at both query
times; and the value 0 is returned exactly when the ledger is empty
(when the oldest qualifying entry exits the minute window the value does
not reach 0 but jumps to the next-oldest remaining time, or to Infinity
if no entry remains in the window). -/
theorem getResetTime_monotone_spec :
    (∀ (reqs : List Int) (t1 t2 o : Int),
      t1 ≤ t2 →
      minList (reqs.filter (fun t => decide (t1 - t < windowSizeMinute))) = some o →
      minList (reqs.filter (fun t => decide (t2 - t < windowSizeMinute))) = some o →
      ∃ v1 v2 : Int,
        getResetTime t1 reqs = some v1 ∧ getResetTime t2 reqs = some v2 ∧ v2 ≤ v1) ∧
    (∀ (now : Int) (reqs : List Int), getResetTime now reqs = some 0 ↔ reqs = []) := by
  constructor
  · intro reqs t1 t2 o h12 h1 h2
    have hmem : o ∈ reqs.filter (fun t => decide (t1 - t < windowSizeMinute)) :=
      minList_mem h1
    have hne : reqs ≠ [] := by
      intro h
      subst h
      simp at hmem
    refine ⟨max 0 (windowSizeMinute - (t1 - o)), max 0 (windowSizeMinute - (t2 - o)),
      ?_, ?_, ?_⟩
    · unfold getResetTime
      rw [if_neg (by simpa using hne), h1]
    · unfold getResetTime
      rw [if_neg (by simpa using hne), h2]
    · exact max_le_max (le_refl 0) (by omega)
  · intro now reqs
    constructor
    · intro h
      by_contra hne
      unfold getResetTime at h
      rw [if_neg (by simpa using hne)] at h
      cases hm : minList (reqs.filter (fun t => decide (now - t < windowSizeMinute))) with
      | none => rw [hm] at h; simp at h
      | some o =>
        rw [hm] at h
        have hmem := minList_mem hm
        rw [List.mem_filter] at hmem
        have hlt := of_decide_eq_true hmem.2
        simp only [Option.some.injEq] at h
        have : (0 : Int) < windowSizeMinute - (now - o) := by
          unfold windowSizeMinute at hlt ⊢
          omega
        omega
    · intro h
      subst h
      rfl

/-- Witness for C7 amended: the same oldest entry 0 is in the minute
window at times 0 and 1, so the reset value does not increase between
those calls; and the empty-ledger case returns 0. -/
theorem getResetTime_monotone_spec_witness :
    (∃ v1 v2 : Int,
      getResetTime 0 [0] = some v1 ∧ getResetTime 1 [0] = some v2 ∧ v2 ≤ v1) ∧
    (getResetTime 5 ([] : List Int) = some 0 ↔ ([] : List Int) = []) := by
  constructor
  · exact getResetTime_monotone_spec.1 [0] 0 1 0 (by decide) (by decide) (by decide)
  · exact getResetTime_monotone_spec.2 5 []

/-! ## C9: error classification -/

/-- Claim C9.  For a non-success HTTP response the failure is classified from
the status, with the provider message consulted only in the 429 case via
a quota substring check: 401 gives AuthError, 429 with quota wording
gives QuotaExceeded, 429 without it gives ProviderRateLimited, 400 gives
BadRequest, 403 gives Forbidden, and every other non-success status
gives ProviderError carrying the status code. -/
theorem classifyHttpError_spec (status : Nat) (m : String) :
    classifyHttpError 401 m = .authError ∧
    (jsIncludes m "quota" = true → classifyHttpError 429 m = .quotaExceeded) ∧
    (jsIncludes m "quota" = false → classifyHttpError 429 m = .providerRateLimited) ∧
    classifyHttpError 400 m = .badRequest ∧
    classifyHttpError 403 m = .forbidden ∧
    (status ∉ ([401, 429, 400, 403] : List Nat) → ¬(200 ≤ status ∧ status ≤ 299) →
      classifyHttpError status m = .providerError status m) := by
  refine ⟨rfl, ?_, ?_, rfl, rfl, ?_⟩
  · intro h
    simp [classifyHttpError, h]
  · intro h
    simp [classifyHttpError, h]
  · intro h _
    simp only [List.mem_cons, List.not_mem_nil, or_false, not_or] at h
    obtain ⟨h1, h2, h3, h4⟩ := h
    simp [classifyHttpError, h1, h2, h3, h4]

/-- Witness for C9 at concrete inputs: a 429 with quota wording, a 429
without it, and a plain 500. -/
theorem classifyHttpError_spec_witness :
    classifyHttpError 429 "You exceeded your current quota" = .quotaExceeded ∧
    classifyHttpError 429 "Rate limit reached for requests" = .providerRateLimited ∧
    classifyHttpError 500 "boom" = .providerError 500 "boom" := by
  refine ⟨?_, ?_, ?_⟩
  · exact (classifyHttpError_spec 500 "You exceeded your current quota").2.1 (by decide)
  · exact (classifyHttpError_spec 500 "Rate limit reached for requests").2.2.1 (by decide)
  · exact (classifyHttpError_spec 500 "boom").2.2.2.2.2 (by decide) (by decide)

/-! ## C8: revocation -/

/-- After revocation every hasConsent query yields false: with
user_consent stored as false, each query reloads and caches the false
flag again. -/
theorem hasConsentSeq_after_revoke (st : SyncStorage) (ts : List Int) :
    hasConsentSeq (ConsentManager.revokeConsent st).1 (ConsentManager.revokeConsent st).2 ts
      = ts.map (fun _ => false) := by
  induction ts with
  | nil => rfl
  | cons t rest ih =>
    simp only [hasConsentSeq, List.map_cons]
    refine congrArg₂ _ rfl ?_
    exact ih

/-- Claim C8.  After revokeConsent completes, every subsequent hasConsent
query returns false, the grantedAt timestamp is cleared both in memory
and in storage, and the stored credential (openai_api_key) has been
removed from the external store. -/
theorem revokeConsent_spec (st : SyncStorage) (queryTimes : List Int) (b : Bool)
    (hb : b ∈ hasConsentSeq (ConsentManager.revokeConsent st).1
            (ConsentManager.revokeConsent st).2 queryTimes) :
    b = false ∧
    (ConsentManager.revokeConsent st).1.openai_api_key = none ∧
    (ConsentManager.revokeConsent st).1.consent_timestamp = none ∧
    (ConsentManager.revokeConsent st).2.consentTimestamp = none ∧
    (ConsentManager.revokeConsent st).2.consentGiven = false := by
  refine ⟨?_, rfl, rfl, rfl, rfl⟩
  rw [hasConsentSeq_after_revoke] at hb
  simp at hb
  exact hb.2

/-- Witness for C8 at concrete inputs: two queries after revoking from a
granted state both answer false, and the credential key is gone. -/
theorem revokeConsent_spec_witness :
    false = false ∧
    (ConsentManager.revokeConsent
        { user_consent := some true, consent_timestamp := some 1000,
          consent_version := some "1.0", openai_api_key := some "sk-abc" }).1.openai_api_key
      = none ∧
    (ConsentManager.revokeConsent
        { user_consent := some true, consent_timestamp := some 1000,
          consent_version := some "1.0", openai_api_key := some "sk-abc" }).1.consent_timestamp
      = none ∧
    (ConsentManager.revokeConsent
        { user_consent := some true, consent_timestamp := some 1000,
          consent_version := some "1.0", openai_api_key := some "sk-abc" }).2.consentTimestamp
      = none ∧
    (ConsentManager.revokeConsent
        { user_consent := some true, consent_timestamp := some 1000,
          consent_version := some "1.0", openai_api_key := some "sk-abc" }).2.consentGiven
      = false :=
  revokeConsent_spec
    { user_consent := some true, consent_timestamp := some 1000,
      consent_version := some "1.0", openai_api_key := some "sk-abc" }
    [2000, 20000000000] false (by decide)

/-! ## C3: local rate limit checked strictly before the network call -/

/-- Claim C3.  Whenever the limiter denies admission, the gateway fetch is
never issued (unconditionally: the admission check sits strictly before
the network call), and if the call got past tone validation, consent and
the API-key presence check, the failure returned is RateLimited carrying
the value of getResetTime on the pruned ledger. -/
theorem generate_rateLimited_before_gateway (now : Int) (st : SyncStorage)
    (s : ServiceState) (input tone : String) (resp : GatewayResponse)
    (hrl : canMakeRequest now s.requests = false) :
    (generateEmailReply now st s input tone resp).gatewayCalled = false ∧
    (validateTone tone = true →
      (ConsentManager.hasConsent now st (serviceAfterInit now st s).consent).1 = true →
      s.apiKey ≠ "" →
      (generateEmailReply now st s input tone resp).result =
        .error (.rateLimited (getResetTime now (cleanOldRequests now s.requests)))) := by
  have hrl' : rateAdmit now (cleanOldRequests now s.requests) = false := hrl
  by_cases ht : validateTone tone
  · by_cases hc : (ConsentManager.hasConsent now st (serviceAfterInit now st s).consent).1
    · by_cases hk : s.apiKey = ""
      · refine ⟨?_, ?_⟩
        · simp [generateEmailReply, ht, hc, hk, serviceAfterInit_apiKey]
        · intro _ _ hkne
          exact absurd hk hkne
      · refine ⟨?_, ?_⟩
        · simp [generateEmailReply, ht, hc, hk, serviceAfterInit_apiKey,
            serviceAfterInit_requests, hrl']
        · intro _ _ _
          simp [generateEmailReply, ht, hc, hk, serviceAfterInit_apiKey,
            serviceAfterInit_requests, hrl']
    · refine ⟨?_, ?_⟩
      · simp [generateEmailReply, ht, hc]
      · intro _ hc' _
        exact absurd hc' (by simpa using hc)
  · refine ⟨?_, ?_⟩
    · simp [generateEmailReply, ht]
    · intro ht' _ _
      exact absurd ht' (by simpa using ht)

/-- Witness for C3: a ledger with 15 timestamps inside the minute window
makes generate fail RateLimited with the limiter reset value, without
the gateway being invoked. -/
theorem generate_rateLimited_before_gateway_witness :
    (generateEmailReply 30000
        { user_consent := some true, consent_timestamp := none,
          consent_version := none, openai_api_key := some "sk-abc" }
        { apiKey := "sk-test", isInitialized := true,
          requests := List.replicate 15 (0 : Int),
          consent := { consentGiven := true, consentTimestamp := none } }
        "hello" "casual" (.success [some "x"])).gatewayCalled = false ∧
    (generateEmailReply 30000
        { user_consent := some true, consent_timestamp := none,
          consent_version := none, openai_api_key := some "sk-abc" }
        { apiKey := "sk-test", isInitialized := true,
          requests := List.replicate 15 (0 : Int),
          consent := { consentGiven := true, consentTimestamp := none } }
        "hello" "casual" (.success [some "x"])).result =
      .error (.rateLimited (getResetTime 30000
        (cleanOldRequests 30000 (List.replicate 15 (0 : Int))))) := by
  have h := generate_rateLimited_before_gateway 30000
    { user_consent := some true, consent_timestamp := none,
      consent_version := none, openai_api_key := some "sk-abc" }
    { apiKey := "sk-test", isInitialized := true,
      requests := List.replicate 15 (0 : Int),
      consent := { consentGiven := true, consentTimestamp := none } }
    "hello" "casual" (.success [some "x"]) (by decide)
  exact ⟨h.1, h.2 (by decide) (by decide) (by decide)⟩

/-! ## C4: recordRequest discipline -/

/-- Claim C4 counterexample.  The claim says a failed call leaves the request
ledger unchanged.  recordRequest is indeed not called, but a failed call
that reaches the admission check still prunes the ledger: with ledger
[0] and a provider 401 at now = 3600000 (one hour later), the call fails
AuthError with zero recordRequest invocations, yet the ledger afterwards
is empty, not [0]. -/
theorem generate_failed_call_prunes_ledger_counterexample :
    (generateEmailReply 3600000
        { user_consent := some true, consent_timestamp := none,
          consent_version := none, openai_api_key := some "sk-abc" }
        { apiKey := "sk-test", isInitialized := false, requests := [0],
          consent := ConsentState.fresh }
        "hello there" "formal" (.httpError 401 "")).result = .error .authError ∧
    (generateEmailReply 3600000
        { user_consent := some true, consent_timestamp := none,
          consent_version := none, openai_api_key := some "sk-abc" }
        { apiKey := "sk-test", isInitialized := false, requests := [0],
          consent := ConsentState.fresh }
        "hello there" "formal" (.httpError 401 "")).recordCalls = 0 ∧
    (generateEmailReply 3600000
        { user_consent := some true, consent_timestamp := none,
          consent_version := none, openai_api_key := some "sk-abc" }
        { apiKey := "sk-test", isInitialized := false, requests := [0],
          consent := ConsentState.fresh }
        "hello there" "formal" (.httpError 401 "")).finalState.requests = [] ∧
    ([] : List Int) ≠ [0] := by
  decide

/-- Claim C4 amended.  recordRequest runs exactly once when generate succeeds
and never on a failure (including a provider 401); a failed call appends
nothing to the ledger, although a failed call that reached the admission
check still leaves the ledger pruned of entries older than the hour
window. -/
theorem generate_recordRequest_policy (now : Int) (st : SyncStorage)
    (s : ServiceState) (input tone : String) (resp : GatewayResponse)
    (out : GenOutcome) (hout : out = generateEmailReply now st s input tone resp) :
    ((∃ text, out.result = .ok text) →
      out.recordCalls = 1 ∧
      out.finalState.requests = cleanOldRequests now s.requests ++ [now]) ∧
    ((∃ e, out.result = .error e) →
      out.recordCalls = 0 ∧
      (out.finalState.requests = s.requests ∨
        out.finalState.requests = cleanOldRequests now s.requests)) := by
  subst hout
  by_cases ht : validateTone tone
  case neg =>
    refine ⟨?_, ?_⟩
    · rintro ⟨text, hres⟩
      simp [generateEmailReply, ht] at hres
    · intro _
      simp [generateEmailReply, ht]
  case pos =>
  by_cases hc : (ConsentManager.hasConsent now st (serviceAfterInit now st s).consent).1
  case neg =>
    refine ⟨?_, ?_⟩
    · rintro ⟨text, hres⟩
      simp [generateEmailReply, ht, hc] at hres
    · intro _
      simp [generateEmailReply, ht, hc, serviceAfterInit_requests]
  case pos =>
  by_cases hk : s.apiKey = ""
  case pos =>
    refine ⟨?_, ?_⟩
    · rintro ⟨text, hres⟩
      simp [generateEmailReply, ht, hc, hk, serviceAfterInit_apiKey] at hres
    · intro _
      simp [generateEmailReply, ht, hc, hk, serviceAfterInit_apiKey,
        serviceAfterInit_requests]
  case neg =>
  by_cases hr : rateAdmit now (cleanOldRequests now s.requests)
  case neg =>
    refine ⟨?_, ?_⟩
    · rintro ⟨text, hres⟩
      simp [generateEmailReply, ht, hc, hk, hr, serviceAfterInit_apiKey,
        serviceAfterInit_requests] at hres
    · intro _
      simp [generateEmailReply, ht, hc, hk, hr, serviceAfterInit_apiKey,
        serviceAfterInit_requests]
  case pos =>
  by_cases hi : input = "" || jsTrim input = ""
  case pos =>
    refine ⟨?_, ?_⟩
    · rintro ⟨text, hres⟩
      simp [generateEmailReply, ht, hc, hk, hr, hi, serviceAfterInit_apiKey,
        serviceAfterInit_requests] at hres
    · intro _
      simp [generateEmailReply, ht, hc, hk, hr, hi, serviceAfterInit_apiKey,
        serviceAfterInit_requests]
  case neg =>
  rcases hcall : (callOpenAI s.apiKey resp).2 with e | text
  · refine ⟨?_, ?_⟩
    · rintro ⟨text, hres⟩
      simp [generateEmailReply, ht, hc, hk, hr, hi, hcall, serviceAfterInit_apiKey,
        serviceAfterInit_requests] at hres
    · intro _
      simp [generateEmailReply, ht, hc, hk, hr, hi, hcall, serviceAfterInit_apiKey,
        serviceAfterInit_requests]
  · refine ⟨?_, ?_⟩
    · intro _
      simp [generateEmailReply, ht, hc, hk, hr, hi, hcall, serviceAfterInit_apiKey,
        serviceAfterInit_requests]
    · rintro ⟨e, hres⟩
      simp [generateEmailReply, ht, hc, hk, hr, hi, hcall, serviceAfterInit_apiKey,
        serviceAfterInit_requests] at hres

/-- Witness for C4 amended: a successful run records one request and
appends now to the pruned ledger; a 401 run records none. -/
theorem generate_recordRequest_policy_witness :
    ((generateEmailReply 5
        { user_consent := some true, consent_timestamp := none,
          consent_version := none, openai_api_key := some "sk-abc" }
        { apiKey := "sk-test", isInitialized := false, requests := [],
          consent := ConsentState.fresh }
        "hello" "formal" (.success [some "Hi"])).recordCalls = 1 ∧
      (generateEmailReply 5
        { user_consent := some true, consent_timestamp := none,
          consent_version := none, openai_api_key := some "sk-abc" }
        { apiKey := "sk-test", isInitialized := false, requests := [],
          consent := ConsentState.fresh }
        "hello" "formal" (.success [some "Hi"])).finalState.requests =
        cleanOldRequests 5 [] ++ [5]) ∧
    ((generateEmailReply 5
        { user_consent := some true, consent_timestamp := none,
          consent_version := none, openai_api_key := some "sk-abc" }
        { apiKey := "sk-test", isInitialized := false, requests := [],
          consent := ConsentState.fresh }
        "hello" "formal" (.httpError 401 "")).recordCalls = 0 ∧
      ((generateEmailReply 5
        { user_consent := some true, consent_timestamp := none,
          consent_version := none, openai_api_key := some "sk-abc" }
        { apiKey := "sk-test", isInitialized := false, requests := [],
          consent := ConsentState.fresh }
        "hello" "formal" (.httpError 401 "")).finalState.requests = [] ∨
       (generateEmailReply 5
        { user_consent := some true, consent_timestamp := none,
          consent_version := none, openai_api_key := some "sk-abc" }
        { apiKey := "sk-test", isInitialized := false, requests := [],
          consent := ConsentState.fresh }
        "hello" "formal" (.httpError 401 "")).finalState.requests =
         cleanOldRequests 5 [])) := by
  constructor
  · exact (generate_recordRequest_policy 5
      { user_consent := some true, consent_timestamp := none,
        consent_version := none, openai_api_key := some "sk-abc" }
      { apiKey := "sk-test", isInitialized := false, requests := [],
        consent := ConsentState.fresh }
      "hello" "formal" (.success [some "Hi"]) _ rfl).1 ⟨"Hi", by decide⟩
  · exact (generate_recordRequest_policy 5
      { user_consent := some true, consent_timestamp := none,
        consent_version := none, openai_api_key := some "sk-abc" }
      { apiKey := "sk-test", isInitialized := false, requests := [],
        consent := ConsentState.fresh }
      "hello" "formal" (.httpError 401 "") _ rfl).2 ⟨.authError, by decide⟩
